import Mathlib

/-!
Verification development for the ai-chat-service repository: a shallow
embedding of the ChatGPT completion client (src/chatgpt.ts), the GraphQL
resolvers (schema module) and the Cloudflare worker request gateway
(index module), together with theorems settling the specification claims.

Modelling conventions:
- JavaScript strings are `String`; `null`/`undefined` optional values are
  `Option _`; JS numbers are `Int` (integer positions) or `Rat`
  (fractional positions); `NaN` is outside the model (no claim needs it).
- Nondeterministic inputs of the code (the random mock index, the upstream
  fetch outcome, `Date` timestamps, id generation, the GraphQL engine,
  `JSON.parse` of arbitrary text) are explicit parameters, so every
  function is a pure total function of its inputs.
- Code that throws an exception that is caught within the modelled
  function is folded into its result; an exception that escapes the
  modelled function is an `Except.error ()`.
-/

namespace AIChat

/-- JS `s.trim()`: strip leading and trailing whitespace. Written with
structural recursion (`List.dropWhile`) so that it evaluates inside the
kernel; the slight difference between the JS and Lean whitespace
character classes is irrelevant to every claim, which only distinguish
blank from non-blank. -/
def jsTrim (s : String) : String :=
  ((s.data.dropWhile Char.isWhitespace).reverse.dropWhile Char.isWhitespace).reverse.asString

/-- JS truthiness of a `string | null | undefined` value: truthy exactly
when present and nonempty. -/
def jsTruthyStr : Option String → Bool
  | none => false
  | some s => s != ""

/-- JS `a || b` for strings: `b` when `a` is the empty string (falsy). -/
def jsStrOr (a b : String) : String :=
  if a == "" then b else a

/-- JS `a || b` where `a` is `string | null | undefined`. -/
def jsOptStrOr (a : Option String) (b : String) : String :=
  match a with
  | some s => jsStrOr s b
  | none => b

/-- JS `s || undefined` for `s : string | null`: empty or absent becomes
`undefined`. -/
def jsStrOrUndef : Option String → Option String
  | some s => if s == "" then none else some s
  | none => none

/-- JS `a || b` for an optional integer number: `0` and absence are falsy
(`NaN` is outside the model). -/
def jsIntOr (a : Option Int) (b : Int) : Int :=
  match a with
  | some n => if n == 0 then b else n
  | none => b

/-- JS `a || b` for an optional fractional number: `0` and absence are
falsy (`NaN` is outside the model). -/
def jsRatOr (a : Option Rat) (b : Rat) : Rat :=
  match a with
  | some q => if q == 0 then b else q
  | none => b

/-! ### src/chatgpt.ts — data model -/

/-- Interface `ChatMessage` of src/chatgpt.ts; the role union type
`'system' | 'user' | 'assistant'` is carried as a string. -/
structure ChatMessage where
  role : String
  content : String
  deriving DecidableEq, Repr

/-- Interface `ChatGPTConfig` of src/chatgpt.ts. `apiKey` is required,
the rest optional. -/
structure ChatGPTConfig where
  apiKey : String
  model : Option String := none
  maxTokens : Option Int := none
  temperature : Option Rat := none
  deriving DecidableEq, Repr

/-- Private state of class `ChatGPTService` (src/chatgpt.ts lines 39-51).
The constant `baseUrl` field only contributes to URL strings and is not
modelled. -/
structure ChatGPTService where
  apiKey : String
  defaultModel : String
  maxTokens : Int
  temperature : Rat
  deriving DecidableEq, Repr

/-- Constructor of `ChatGPTService` (src/chatgpt.ts lines 46-51):
every field is guarded with a JS `||` default. -/
def ChatGPTService.make (config : ChatGPTConfig) : ChatGPTService :=
  { apiKey := jsStrOr config.apiKey ""
  , defaultModel := jsOptStrOr config.model "gpt-3.5-turbo"
  , maxTokens := jsIntOr config.maxTokens 1000
  , temperature := jsRatOr config.temperature (7 / 10) }

/-- One element of the `choices` array of interface
`ChatCompletionResponse`. -/
structure CCChoice where
  index : Int
  message : ChatMessage
  finish_reason : String
  deriving DecidableEq, Repr

/-- The parsed upstream response body as observed by `sendMessage`:
only the `choices` field is ever read, so the unread declared fields
(`id`, `object`, `created`, `model`, `usage`) are omitted. `choices` is
optional because the runtime guard `data.choices && ...` tolerates a
parsed body in which the field is absent. -/
structure ChatCompletionResponse where
  choices : Option (List CCChoice)
  deriving DecidableEq, Repr

/-- Interface `ChatCompletionRequest` as actually built by `sendMessage`
(lines 83-88): `max_tokens` and `temperature` are always set, and the
optional `stream` field is never set, so they appear here without
optionality. -/
structure ChatCompletionRequest where
  model : String
  messages : List ChatMessage
  max_tokens : Int
  temperature : Rat
  deriving DecidableEq, Repr

/-- The `options` argument of `sendMessage` (src/chatgpt.ts lines 55-59). -/
structure SendOptions where
  conversationId : Option String := none
  model : Option String := none
  systemPrompt : Option String := none
  deriving DecidableEq, Repr

/-- Outcome of the single `fetch` call to the upstream completion
endpoint, as an explicit input: `fail` is a transport error (the promise
rejects); `resp ok status bodyText bodyJson` is an HTTP response, where
`bodyJson = none` models `response.json()` throwing on a malformed body. -/
inductive FetchOutcome where
  | fail
  | resp (ok : Bool) (status : Nat) (bodyText : String) (bodyJson : Option ChatCompletionResponse)
  deriving DecidableEq, Repr

/-- The four mock templates of `getMockResponse`
(src/chatgpt.ts lines 120-125), instantiated with the input message. -/
def mockResponses (message : String) : List String :=
  [ "I understand you said: \"" ++ message ++ "\". This is a mock response since no API key is configured."
  , "Thank you for your message: \"" ++ message ++ "\". Please configure your ChatGPT API key for real responses."
  , "Mock AI Response: I received your message \"" ++ message ++ "\" but I\x27m running in demo mode."
  , "Hello! You asked: \"" ++ message ++ "\". This is a placeholder response - please add your OpenAI API key." ]

/-- Function `getMockResponse` (src/chatgpt.ts lines 119-128).
`Math.floor(Math.random() * mockResponses.length)` draws an index in
`{0,1,2,3}`; the draw is the explicit input `mockIdx`. -/
def getMockResponse (message : String) (mockIdx : Fin 4) : String :=
  (mockResponses message).getD mockIdx.val ""

/-- Observable outcome of one `sendMessage` call: whether the upstream
fetch was reached, the request body that was (or would have been) sent,
and the returned string. `sendMessage` returns a plain string — it never
throws to its caller — so no error variant is needed. -/
structure SendResult where
  networkCalled : Bool
  request : Option ChatCompletionRequest
  result : String
  deriving DecidableEq, Repr

/-- The `messages` array assembled by `sendMessage`
(src/chatgpt.ts lines 67-81): an optional system turn guarded by the JS
truthiness of `options?.systemPrompt`, then the user turn. -/
def buildMessages (message : String) (options : Option SendOptions) : List ChatMessage :=
  (match options.bind (fun o => o.systemPrompt) with
   | some sp => if sp != "" then [{ role := "system", content := sp }] else []
   | none => []) ++ [{ role := "user", content := message }]

/-- The `requestBody` assembled by `sendMessage`
(src/chatgpt.ts lines 83-88). -/
def buildRequestBody (svc : ChatGPTService) (message : String)
    (options : Option SendOptions) : ChatCompletionRequest :=
  { model := jsOptStrOr (options.bind (fun o => o.model)) svc.defaultModel
  , messages := buildMessages message options
  , max_tokens := svc.maxTokens
  , temperature := svc.temperature }

/-- Method `ChatGPTService.sendMessage` (src/chatgpt.ts lines 53-117).
The guard `!this.apiKey || this.apiKey.trim() === ''` short-circuits to a
mock response with no network call; otherwise the request body is built
and the upstream outcome is inspected: non-ok status, malformed body,
absent `choices` and empty `choices` all throw inside the `try` and are
caught by the catch-all, which falls back to the mock response; only a
body with at least one choice returns that first choice's content. -/
def ChatGPTService.sendMessage (svc : ChatGPTService) (message : String)
    (options : Option SendOptions) (upstream : FetchOutcome) (mockIdx : Fin 4) : SendResult :=
  if svc.apiKey == "" || jsTrim svc.apiKey == "" then
    { networkCalled := false, request := none, result := getMockResponse message mockIdx }
  else
    let requestBody := buildRequestBody svc message options
    match upstream with
    | FetchOutcome.fail =>
        { networkCalled := true, request := some requestBody
        , result := getMockResponse message mockIdx }
    | FetchOutcome.resp ok _status _bodyText bodyJson =>
        if !ok then
          { networkCalled := true, request := some requestBody
          , result := getMockResponse message mockIdx }
        else
          match bodyJson with
          | none =>
              { networkCalled := true, request := some requestBody
              , result := getMockResponse message mockIdx }
          | some data =>
              match data.choices with
              | some (c :: _) =>
                  { networkCalled := true, request := some requestBody
                  , result := c.message.content }
              | _ =>
                  { networkCalled := true, request := some requestBody
                  , result := getMockResponse message mockIdx }

/-- Classifies the upstream outcomes that `sendMessage` treats as
failures: transport error, non-success status, malformed body, and a
well-formed body whose `choices` is absent or empty. -/
def upstreamFailed : FetchOutcome → Bool
  | FetchOutcome.fail => true
  | FetchOutcome.resp ok _ _ bodyJson =>
      !ok ||
        match bodyJson with
        | none => true
        | some data =>
            match data.choices with
            | some (_ :: _) => false
            | _ => true

/-- The environment bindings read by `createChatGPTService`
(the unused `ENVIRONMENT` and `ALLOWED_ORIGINS` bindings are omitted). -/
structure Env where
  OPENAI_API_KEY : Option String := none
  OPENAI_MODEL : Option String := none
  MAX_TOKENS : Option String := none
  TEMPERATURE : Option String := none
  deriving DecidableEq, Repr

/-- Factory `createChatGPTService` (src/chatgpt.ts lines 155-162). The JS
builtins `parseInt` and `parseFloat` are passed in as oracles
(`jsParseInt`, `jsParseFloat`); claims about them only constrain their
value at the concrete strings involved. -/
def createChatGPTService (jsParseInt : String → Int) (jsParseFloat : String → Rat)
    (env : Env) : ChatGPTService :=
  ChatGPTService.make
    { apiKey := jsOptStrOr env.OPENAI_API_KEY ""
    , model := some (jsOptStrOr env.OPENAI_MODEL "gpt-3.5-turbo")
    , maxTokens := some (jsParseInt (jsOptStrOr env.MAX_TOKENS "1000"))
    , temperature := some (jsParseFloat (jsOptStrOr env.TEMPERATURE "0.7")) }

/-! ### schema module (GraphQL resolvers) -/

/-- GraphQL input type `MessageInput`. -/
structure MessageInput where
  message : String
  conversationId : Option String := none
  model : Option String := none
  deriving DecidableEq, Repr

/-- GraphQL object type `ChatResponse`. -/
structure ChatResponse where
  id : String
  message : String
  timestamp : String
  model : String
  deriving DecidableEq, Repr

/-- Everything observable about one run of the `sendMessage` mutation
resolver: the response it returns, the options object it passed to the
completion client, and the client call's outcome. -/
structure ResolverTrace where
  response : ChatResponse
  passedOptions : SendOptions
  clientResult : SendResult
  deriving DecidableEq, Repr

/-- Resolver `resolvers.Mutation.sendMessage` of the schema module (lines 56-77).
`generateId()` and `new Date().toISOString()` are the explicit inputs
`genId` and `now`. The resolver passes `input.model || 'gpt-3.5-turbo'`
as the option model (no `systemPrompt` key), and reports the same value
as the response model. Its `try`/`catch` wrapper never fires because the
client's `sendMessage` never throws, so it is not modelled. -/
def sendMessageResolver (input : MessageInput) (chatService : ChatGPTService)
    (upstream : FetchOutcome) (mockIdx : Fin 4) (genId now : String) : ResolverTrace :=
  let opts : SendOptions :=
    { conversationId := input.conversationId
    , model := some (jsOptStrOr input.model "gpt-3.5-turbo")
    , systemPrompt := none }
  let sr := chatService.sendMessage input.message (some opts) upstream mockIdx
  { response :=
      { id := genId
      , message := sr.result
      , timestamp := now
      , model := jsOptStrOr input.model "gpt-3.5-turbo" }
  , passedOptions := opts
  , clientResult := sr }

/-! ### index module (worker request gateway) -/

/-- A minimal JSON value universe for the `variables` payload, which the
gateway only passes through to the GraphQL engine. -/
inductive JsValue where
  | null
  | bool (b : Bool)
  | num (q : Rat)
  | str (s : String)
  | arr (elems : List JsValue)
  | obj (fields : List (String × JsValue))

/-- What the gateway observes of `await request.json()` on a POST body:
`truthy` is the JS truthiness of the parsed value, and the three fields
are what the unvalidated cast to `{query, variables?, operationName?}`
yields on property access (`none` = `undefined`; a non-string `query`
value is outside the model). -/
structure PostJsonBody where
  truthy : Bool
  query : Option String := none
  variableValues : Option JsValue := none
  operationName : Option String := none

/-- An inbound worker request, pre-projected onto exactly what the
gateway reads: the method, the URL pathname and search parameters, the
content-type header, and the body via `request.json()`
(`Except.error ()` = the body is not parseable JSON) and
`request.text()`. -/
structure WRequest where
  method : String
  pathname : String
  contentType : Option String := none
  jsonBody : Except Unit PostJsonBody := Except.error ()
  textBody : String := ""
  queryParam : Option String := none
  variablesParam : Option String := none
  operationNameParam : Option String := none

/-- A worker `Response`: status, body (`none` = null body) and headers in
construction order. -/
structure WResponse where
  status : Nat
  body : Option String
  headers : List (String × String)
  deriving DecidableEq, Repr

/-- Constant `corsHeaders` of the index module (lines 25-29). -/
def corsHeaders : List (String × String) :=
  [ ("Access-Control-Allow-Origin", "*")
  , ("Access-Control-Allow-Methods", "GET, POST, OPTIONS")
  , ("Access-Control-Allow-Headers", "Content-Type, Authorization") ]

/-- Function `handleCORS` (index module lines 32-40): an OPTIONS request
short-circuits to a 200 response with null body and only the CORS
headers. -/
def handleCORS (req : WRequest) : Option WResponse :=
  if req.method == "OPTIONS" then
    some { status := 200, body := none, headers := corsHeaders }
  else
    none

/-- Character-list prefix test, structurally recursive so that it
evaluates inside the kernel. -/
def startsWithChars : List Char → List Char → Bool
  | _, [] => true
  | [], _ :: _ => false
  | a :: as, b :: bs => a == b && startsWithChars as bs

/-- Character-list containment test, structurally recursive. -/
def containsChars (hay pat : List Char) : Bool :=
  startsWithChars hay pat ||
    match hay with
    | [] => false
    | _ :: rest => containsChars rest pat

/-- JS `hay.includes(pat)`: `pat` occurs contiguously in `hay`. -/
def strIncludes (hay pat : String) : Bool :=
  containsChars hay.data pat.data

/-- JS `contentType?.includes(pat)`: `undefined` (absent header) is
falsy. -/
def ctIncludes (ct : Option String) (pat : String) : Bool :=
  match ct with
  | some c => strIncludes c pat
  | none => false

/-- The value a successful `parseGraphQLRequest` hands to `fetch`:
`query` is `none` when the unvalidated POST body lacked the field. -/
structure GraphQLRequestV where
  query : Option String
  variableValues : Option JsValue := none
  operationName : Option String := none

/-- Function `parseGraphQLRequest` (index module lines 43-82). `parseJson` is the
`JSON.parse` oracle (`none` = it throws). The POST/json branch returns
the parsed body unchecked; a falsy parsed value is returned unchanged in
JS and later rejected by the caller's `!graphqlRequest` check exactly
like `null`, so it is modelled as `none` here. In the GET branch a
`JSON.parse` failure on `variables` is NOT caught: the exception escapes
this function (`Except.error ()`). -/
def parseGraphQLRequest (parseJson : String → Option JsValue) (req : WRequest) :
    Except Unit (Option GraphQLRequestV) :=
  if req.method == "POST" then
    if ctIncludes req.contentType "application/json" then
      match req.jsonBody with
      | Except.ok body =>
          if body.truthy then
            Except.ok (some { query := body.query
                            , variableValues := body.variableValues
                            , operationName := body.operationName })
          else
            Except.ok none
      | Except.error _ => Except.ok none
    else if ctIncludes req.contentType "application/graphql" then
      Except.ok (some { query := some req.textBody })
    else
      Except.ok none
  else if req.method == "GET" then
    match req.queryParam with
    | some q =>
        if q != "" then
          match req.variablesParam with
          | some v =>
              if v != "" then
                match parseJson v with
                | some j =>
                    Except.ok (some { query := some q, variableValues := some j
                                    , operationName := jsStrOrUndef req.operationNameParam })
                | none => Except.error ()
              else
                Except.ok (some { query := some q
                                , operationName := jsStrOrUndef req.operationNameParam })
          | none =>
              Except.ok (some { query := some q
                              , operationName := jsStrOrUndef req.operationNameParam })
        else
          Except.ok none
    | none => Except.ok none
  else
    Except.ok none

/-- Outcome of `await graphql({...})`, the external engine call inside
the gateway's `try`: either a result that is stringified into the 200
body, or a rejection whose message feeds the 500 body. -/
inductive ExecOutcome where
  | ok (resultJson : String)
  | thrown (message : String)

/-- Body of the 400 response:
`JSON.stringify({ error: 'Invalid GraphQL request' })`. -/
def invalidRequestBody : String :=
  "\x7b\"error\":\"Invalid GraphQL request\"\x7d"

/-- Body of the 500 response (the thrown error's message is interpolated;
JSON string escaping of the message is outside the model). -/
def internalErrorBody (m : String) : String :=
  "\x7b\"error\":\"Internal server error\",\"message\":\"" ++ m ++ "\"\x7d"

/-- Body of the /health response. -/
def healthBody (now : String) : String :=
  "\x7b\"status\":\"healthy\",\"timestamp\":\"" ++ now ++ "\",\"version\":\"1.0.0\"\x7d"

/-- Body of the 404 response. -/
def notFoundBody : String :=
  "\x7b\"error\":\"Not Found\",\"message\":\"Available endpoints: /, /graphql, /health\"\x7d"

/-- The static playground page (index module lines 165-231); a fixed
string whose full HTML content is irrelevant to every claim and elided. -/
def playgroundHTML : String :=
  "<!DOCTYPE html> (static playground page)"

/-- The worker's `fetch` handler (index module lines 86-252). Oracles:
`parseJson` for `JSON.parse`, `jsParseInt`/`jsParseFloat` for the service
factory, `exec` for the external GraphQL engine (which receives the
decoded request and the context's freshly created chat service), `now`
for `new Date().toISOString()`. `Except.error ()` is an exception
escaping the handler: the only such path is `parseGraphQLRequest`
throwing on GET `variables`, which happens before the `try` block. -/
def workerFetch (parseJson : String → Option JsValue)
    (jsParseInt : String → Int) (jsParseFloat : String → Rat)
    (exec : GraphQLRequestV → ChatGPTService → ExecOutcome)
    (env : Env) (now : String) (req : WRequest) : Except Unit WResponse :=
  match handleCORS req with
  | some corsResponse => Except.ok corsResponse
  | none =>
    if req.pathname == "/health" then
      Except.ok { status := 200, body := some (healthBody now)
                , headers := ("Content-Type", "application/json") :: corsHeaders }
    else if req.pathname == "/graphql" then
      match parseGraphQLRequest parseJson req with
      | Except.error e => Except.error e
      | Except.ok none =>
          Except.ok { status := 400, body := some invalidRequestBody
                    , headers := ("Content-Type", "application/json") :: corsHeaders }
      | Except.ok (some graphqlRequest) =>
          match exec graphqlRequest (createChatGPTService jsParseInt jsParseFloat env) with
          | ExecOutcome.ok resultJson =>
              Except.ok { status := 200, body := some resultJson
                        , headers := ("Content-Type", "application/json") :: corsHeaders }
          | ExecOutcome.thrown m =>
              Except.ok { status := 500, body := some (internalErrorBody m)
                        , headers := ("Content-Type", "application/json") :: corsHeaders }
    else if req.pathname == "/playground" || req.pathname == "/" then
      Except.ok { status := 200, body := some playgroundHTML
                , headers := ("Content-Type", "text/html") :: corsHeaders }
    else
      Except.ok { status := 404, body := some notFoundBody
                , headers := ("Content-Type", "application/json") :: corsHeaders }

/-! ### Concrete instances used by witnesses and counterexamples -/

/-- A concrete service with a configured (non-blank) credential. -/
def demoService : ChatGPTService :=
  { apiKey := "sk-test", defaultModel := "gpt-3.5-turbo"
  , maxTokens := 1000, temperature := 7 / 10 }

/-- Options whose `systemPrompt` and `model` are provided but empty. -/
def emptyStringOptions : SendOptions :=
  { conversationId := none, model := some "", systemPrompt := some "" }

/-- A concrete OPTIONS request. -/
def optionsReq : WRequest :=
  { method := "OPTIONS", pathname := "/graphql" }

/-- A POST /graphql request whose JSON body parses to a truthy object
that lacks the `query` field. -/
def postNoQueryReq : WRequest :=
  { method := "POST", pathname := "/graphql"
  , contentType := some "application/json"
  , jsonBody := Except.ok { truthy := true } }

/-- A GET /graphql request with a query parameter and a `variables`
parameter that is not valid JSON (the `parseJson` oracle used with it
returns `none`). -/
def getBadVarsReq : WRequest :=
  { method := "GET", pathname := "/graphql"
  , queryParam := some "query Q", variablesParam := some "not json" }

/-! ### Helper lemmas -/

theorem getMockResponse_mem (message : String) (mockIdx : Fin 4) :
    getMockResponse message mockIdx ∈ mockResponses message := by
  fin_cases mockIdx
  · exact List.Mem.head _
  · exact List.Mem.tail _ (List.Mem.head _)
  · exact List.Mem.tail _ (List.Mem.tail _ (List.Mem.head _))
  · exact List.Mem.tail _ (List.Mem.tail _ (List.Mem.tail _ (List.Mem.head _)))

theorem getMockResponse_contains (message : String) (mockIdx : Fin 4) :
    ∃ pre post, getMockResponse message mockIdx = pre ++ message ++ post := by
  fin_cases mockIdx
  · exact ⟨"I understand you said: \"",
      "\". This is a mock response since no API key is configured.", rfl⟩
  · exact ⟨"Thank you for your message: \"",
      "\". Please configure your ChatGPT API key for real responses.", rfl⟩
  · exact ⟨"Mock AI Response: I received your message \"",
      "\" but I\x27m running in demo mode.", rfl⟩
  · exact ⟨"Hello! You asked: \"",
      "\". This is a placeholder response - please add your OpenAI API key.", rfl⟩

theorem sendMessage_blank_key (svc : ChatGPTService) (message : String)
    (options : Option SendOptions) (upstream : FetchOutcome) (mockIdx : Fin 4)
    (hblank : (svc.apiKey == "" || jsTrim svc.apiKey == "") = true) :
    svc.sendMessage message options upstream mockIdx
      = { networkCalled := false, request := none
        , result := getMockResponse message mockIdx } := by
  simp [ChatGPTService.sendMessage, hblank]

theorem sendMessage_request_eq (svc : ChatGPTService) (message : String)
    (options : Option SendOptions) (upstream : FetchOutcome) (mockIdx : Fin 4)
    (hcred : (svc.apiKey == "" || jsTrim svc.apiKey == "") = false) :
    (svc.sendMessage message options upstream mockIdx).request
      = some (buildRequestBody svc message options) := by
  cases upstream with
  | fail => simp [ChatGPTService.sendMessage, hcred]
  | resp ok st tx js =>
    cases ok with
    | false => simp [ChatGPTService.sendMessage, hcred]
    | true =>
      cases js with
      | none => simp [ChatGPTService.sendMessage, hcred]
      | some data =>
        obtain ⟨choices⟩ := data
        cases choices with
        | none => simp [ChatGPTService.sendMessage, hcred]
        | some cs =>
          cases cs with
          | nil => simp [ChatGPTService.sendMessage, hcred]
          | cons c rest => simp [ChatGPTService.sendMessage, hcred]

/-! ### Claim theorems -/

/-- C1: with a credential configured, `sendMessage` never raises an error
to its caller (it is a total function into `SendResult`), and on any
upstream failure — transport error, non-success status, malformed body,
or a well-formed body with absent or zero choices — its result is one of
the four fixed placeholder templates instantiated with the input
message. -/
theorem sendMessage_failure_returns_mock
    (svc : ChatGPTService) (message : String) (options : Option SendOptions)
    (upstream : FetchOutcome) (mockIdx : Fin 4)
    (hcred : (svc.apiKey == "" || jsTrim svc.apiKey == "") = false)
    (hfail : upstreamFailed upstream = true) :
    (svc.sendMessage message options upstream mockIdx).result ∈ mockResponses message := by
  cases upstream with
  | fail => simp [ChatGPTService.sendMessage, hcred, getMockResponse_mem]
  | resp ok st tx js =>
    cases ok with
    | false => simp [ChatGPTService.sendMessage, hcred, getMockResponse_mem]
    | true =>
      cases js with
      | none => simp [ChatGPTService.sendMessage, hcred, getMockResponse_mem]
      | some data =>
        obtain ⟨choices⟩ := data
        cases choices with
        | none => simp [ChatGPTService.sendMessage, hcred, getMockResponse_mem]
        | some cs =>
          cases cs with
          | nil => simp [ChatGPTService.sendMessage, hcred, getMockResponse_mem]
          | cons c rest => simp [upstreamFailed] at hfail

/-- Witness for C1 at a concrete configured service and a concrete
failing upstream outcome (HTTP 500). -/
theorem sendMessage_failure_returns_mock_witness :
    (demoService.sendMessage "hello" none
        (FetchOutcome.resp false 500 "oops" none) 0).result ∈ mockResponses "hello" :=
  sendMessage_failure_returns_mock demoService "hello" none
    (FetchOutcome.resp false 500 "oops" none) 0 (by decide) (by decide)

/-- C2: when the credential is absent or blank after trimming,
`sendMessage` performs no network call, returns one of the fixed
placeholder templates, and the returned string contains the input
message verbatim. -/
theorem sendMessage_no_credential
    (svc : ChatGPTService) (message : String) (options : Option SendOptions)
    (upstream : FetchOutcome) (mockIdx : Fin 4)
    (hblank : (svc.apiKey == "" || jsTrim svc.apiKey == "") = true) :
    (svc.sendMessage message options upstream mockIdx).networkCalled = false
    ∧ (svc.sendMessage message options upstream mockIdx).result ∈ mockResponses message
    ∧ ∃ pre post,
        (svc.sendMessage message options upstream mockIdx).result = pre ++ message ++ post := by
  rw [sendMessage_blank_key svc message options upstream mockIdx hblank]
  exact ⟨rfl, getMockResponse_mem message mockIdx, getMockResponse_contains message mockIdx⟩

/-- Witness for C2 at a credential that is blank after trimming. -/
theorem sendMessage_no_credential_witness :
    (({ apiKey := "  ", defaultModel := "gpt-3.5-turbo", maxTokens := 1000
      , temperature := 7 / 10 : ChatGPTService }).sendMessage "ping" none
        FetchOutcome.fail 2).networkCalled = false
    ∧ (({ apiKey := "  ", defaultModel := "gpt-3.5-turbo", maxTokens := 1000
        , temperature := 7 / 10 : ChatGPTService }).sendMessage "ping" none
          FetchOutcome.fail 2).result ∈ mockResponses "ping"
    ∧ ∃ pre post,
        (({ apiKey := "  ", defaultModel := "gpt-3.5-turbo", maxTokens := 1000
          , temperature := 7 / 10 : ChatGPTService }).sendMessage "ping" none
            FetchOutcome.fail 2).result = pre ++ "ping" ++ post :=
  sendMessage_no_credential _ "ping" none FetchOutcome.fail 2 (by decide)

/-- C3: with a credential configured and a successful upstream response
whose well-formed body has at least one choice, `sendMessage` returns
exactly the first choice's message content; a well-formed body with zero
choices falls back to a placeholder template. -/
theorem sendMessage_success_first_choice
    (svc : ChatGPTService) (message : String) (options : Option SendOptions)
    (mockIdx : Fin 4) (status : Nat) (bodyText : String)
    (c : CCChoice) (rest : List CCChoice)
    (hcred : (svc.apiKey == "" || jsTrim svc.apiKey == "") = false) :
    (svc.sendMessage message options
        (FetchOutcome.resp true status bodyText (some { choices := some (c :: rest) }))
        mockIdx).result = c.message.content
    ∧ (svc.sendMessage message options
        (FetchOutcome.resp true status bodyText (some { choices := some [] }))
        mockIdx).result ∈ mockResponses message := by
  constructor
  · simp [ChatGPTService.sendMessage, hcred]
  · simp [ChatGPTService.sendMessage, hcred, getMockResponse_mem]

/-- Witness for C3 at a concrete success body with one choice. -/
theorem sendMessage_success_first_choice_witness :
    (demoService.sendMessage "hi" none
        (FetchOutcome.resp true 200 ""
          (some { choices := some [{ index := 0
                                   , message := { role := "assistant", content := "Hi there!" }
                                   , finish_reason := "stop" }] })) 1).result = "Hi there!"
    ∧ (demoService.sendMessage "hi" none
        (FetchOutcome.resp true 200 "" (some { choices := some [] })) 1).result
        ∈ mockResponses "hi" :=
  sendMessage_success_first_choice demoService "hi" none 1 200 ""
    { index := 0, message := { role := "assistant", content := "Hi there!" }
    , finish_reason := "stop" } [] (by decide)

/-- C10: the constructor and factory substitute defaults on every falsy
configured value, so a temperature of 0, a max-token count of 0 and an
empty model can never be configured: temperature 0 (also via
TEMPERATURE="0") becomes 0.7, maxTokens 0 (also via MAX_TOKENS="0")
becomes 1000, and an empty model string becomes "gpt-3.5-turbo". -/
theorem falsy_config_defaults
    (config : ChatGPTConfig) (jsParseInt : String → Int) (jsParseFloat : String → Rat)
    (env : Env) :
    ((ChatGPTService.make config).temperature ≠ 0
      ∧ (ChatGPTService.make config).maxTokens ≠ 0
      ∧ (ChatGPTService.make config).defaultModel ≠ "")
    ∧ (config.temperature = some 0 → (ChatGPTService.make config).temperature = 7 / 10)
    ∧ (config.maxTokens = some 0 → (ChatGPTService.make config).maxTokens = 1000)
    ∧ (config.model = some "" → (ChatGPTService.make config).defaultModel = "gpt-3.5-turbo")
    ∧ (jsParseFloat "0" = 0 → env.TEMPERATURE = some "0" →
        (createChatGPTService jsParseInt jsParseFloat env).temperature = 7 / 10)
    ∧ (jsParseInt "0" = 0 → env.MAX_TOKENS = some "0" →
        (createChatGPTService jsParseInt jsParseFloat env).maxTokens = 1000) := by
  refine ⟨⟨?_, ?_, ?_⟩, ?_, ?_, ?_, ?_, ?_⟩
  · cases hq : config.temperature with
    | none => simp [ChatGPTService.make, jsRatOr, hq]
    | some q =>
      simp only [ChatGPTService.make, jsRatOr, hq]
      split
      · norm_num
      · next h => simpa using h
  · cases hn : config.maxTokens with
    | none => simp [ChatGPTService.make, jsIntOr, hn]
    | some n =>
      simp only [ChatGPTService.make, jsIntOr, hn]
      split
      · norm_num
      · next h => simpa using h
  · cases hc : config.model with
    | none => simp [ChatGPTService.make, jsOptStrOr, jsStrOr, hc]
    | some s =>
      simp only [ChatGPTService.make, jsOptStrOr, jsStrOr, hc]
      split
      · simp
      · next h => simpa using h
  · intro h; simp [ChatGPTService.make, jsRatOr, h]
  · intro h; simp [ChatGPTService.make, jsIntOr, h]
  · intro h; simp [ChatGPTService.make, jsOptStrOr, jsStrOr, h]
  · intro hpf h
    simp [createChatGPTService, ChatGPTService.make, h, jsOptStrOr, jsStrOr, jsRatOr, hpf]
  · intro hpi h
    simp [createChatGPTService, ChatGPTService.make, h, jsOptStrOr, jsStrOr, jsIntOr, hpi]

/-- Witness for C10 at concrete configs and environments. -/
theorem falsy_config_defaults_witness :
    (ChatGPTService.make { apiKey := "k", model := some ""
                         , maxTokens := some 0, temperature := some 0 }).temperature = 7 / 10
    ∧ (ChatGPTService.make { apiKey := "k", model := some ""
                           , maxTokens := some 0, temperature := some 0 }).maxTokens = 1000
    ∧ (ChatGPTService.make { apiKey := "k", model := some ""
                           , maxTokens := some 0, temperature := some 0 }).defaultModel
        = "gpt-3.5-turbo"
    ∧ (createChatGPTService (fun _ => 0) (fun _ => 0)
          { MAX_TOKENS := some "0", TEMPERATURE := some "0" }).temperature = 7 / 10
    ∧ (createChatGPTService (fun _ => 0) (fun _ => 0)
          { MAX_TOKENS := some "0", TEMPERATURE := some "0" }).maxTokens = 1000 := by
  refine ⟨?_, ?_, ?_, ?_, ?_⟩
  · exact (falsy_config_defaults _ (fun _ => 0) (fun _ => 0) {}).2.1 rfl
  · exact (falsy_config_defaults _ (fun _ => 0) (fun _ => 0) {}).2.2.1 rfl
  · exact (falsy_config_defaults _ (fun _ => 0) (fun _ => 0) {}).2.2.2.1 rfl
  · exact (falsy_config_defaults { apiKey := "k" } (fun _ => 0) (fun _ => 0) _).2.2.2.2.1 rfl rfl
  · exact (falsy_config_defaults { apiKey := "k" } (fun _ => 0) (fun _ => 0) _).2.2.2.2.2 rfl rfl

/-- C6 counterexample: the claim "a system turn is present if and only if
a systemPrompt is provided, and the model is options.model when provided"
fails at provided-but-empty strings. With
`options = { model := some "", systemPrompt := some "" }` — both fields
provided — the built request has no system turn and carries the default
model, because the code tests JS truthiness, not presence. -/
theorem empty_system_prompt_adds_no_turn :
    emptyStringOptions.systemPrompt ≠ none
    ∧ emptyStringOptions.model ≠ none
    ∧ (demoService.sendMessage "hi" (some emptyStringOptions) FetchOutcome.fail 0).request
        = some { model := "gpt-3.5-turbo"
               , messages := [{ role := "user", content := "hi" }]
               , max_tokens := 1000, temperature := 7 / 10 } := by
  refine ⟨by decide, by decide, by rfl⟩

/-- C6 (amended): with a credential configured, the built request has the
system turn exactly when `options.systemPrompt` is provided and nonempty
(then it precedes the single user turn carrying the message), its model
is `options.model` when provided and nonempty and the configured default
model otherwise, and its max_tokens and temperature are the configured
values. -/
theorem request_build_characterization
    (svc : ChatGPTService) (message : String) (options : Option SendOptions)
    (upstream : FetchOutcome) (mockIdx : Fin 4)
    (hcred : (svc.apiKey == "" || jsTrim svc.apiKey == "") = false) :
    ∃ reqBody, (svc.sendMessage message options upstream mockIdx).request = some reqBody
      ∧ (∀ sp, options.bind (fun o => o.systemPrompt) = some sp → sp ≠ "" →
          reqBody.messages
            = [{ role := "system", content := sp }, { role := "user", content := message }])
      ∧ ((options.bind (fun o => o.systemPrompt) = none
            ∨ options.bind (fun o => o.systemPrompt) = some "") →
          reqBody.messages = [{ role := "user", content := message }])
      ∧ (∀ m, options.bind (fun o => o.model) = some m → m ≠ "" → reqBody.model = m)
      ∧ ((options.bind (fun o => o.model) = none
            ∨ options.bind (fun o => o.model) = some "") →
          reqBody.model = svc.defaultModel)
      ∧ reqBody.max_tokens = svc.maxTokens
      ∧ reqBody.temperature = svc.temperature := by
  refine ⟨buildRequestBody svc message options,
    sendMessage_request_eq svc message options upstream mockIdx hcred,
    ?_, ?_, ?_, ?_, rfl, rfl⟩
  · intro sp hsp hne
    simp [buildRequestBody, buildMessages, hsp, hne]
  · rintro (h | h) <;> simp [buildRequestBody, buildMessages, h]
  · intro m hm hne
    simp [buildRequestBody, jsOptStrOr, jsStrOr, hm, hne]
  · rintro (h | h) <;> simp [buildRequestBody, jsOptStrOr, jsStrOr, h]

/-- Witness for C6 (amended) at concrete nonempty options. -/
theorem request_build_characterization_witness :
    ∃ reqBody,
      (demoService.sendMessage "hi"
          (some { conversationId := none, model := some "gpt-4"
                , systemPrompt := some "be brief" }) FetchOutcome.fail 0).request
        = some reqBody
      ∧ reqBody.model = "gpt-4"
      ∧ reqBody.messages
          = [{ role := "system", content := "be brief" }, { role := "user", content := "hi" }] := by
  obtain ⟨r, h1, h2, _, h4, _, _, _⟩ :=
    request_build_characterization demoService "hi"
      (some { conversationId := none, model := some "gpt-4", systemPrompt := some "be brief" })
      FetchOutcome.fail 0 (by decide)
  exact ⟨r, h1, h4 "gpt-4" rfl (by decide), h2 "be brief" rfl (by decide)⟩

theorem jsOptStrOr_ne_empty (a : Option String) (b : String) (hb : b ≠ "") :
    jsOptStrOr a b ≠ "" := by
  cases a with
  | none => simpa [jsOptStrOr] using hb
  | some s =>
    simp only [jsOptStrOr, jsStrOr]
    split
    · exact hb
    · next h => simpa using h

theorem sendMessage_defaultModel_irrel (svc : ChatGPTService) (d : String)
    (message : String) (options : Option SendOptions) (upstream : FetchOutcome)
    (mockIdx : Fin 4)
    (hm : ∃ m, options.bind (fun o => o.model) = some m ∧ m ≠ "") :
    ChatGPTService.sendMessage { svc with defaultModel := d } message options upstream mockIdx
      = svc.sendMessage message options upstream mockIdx := by
  obtain ⟨m, hsome, hne⟩ := hm
  have hreq : buildRequestBody { svc with defaultModel := d } message options
      = buildRequestBody svc message options := by
    simp [buildRequestBody, jsOptStrOr, jsStrOr, hsome, hne]
  simp only [ChatGPTService.sendMessage, hreq]

theorem resolver_defaultModel_irrel (input : MessageInput) (svc : ChatGPTService)
    (d : String) (upstream : FetchOutcome) (mockIdx : Fin 4) (genId now : String) :
    sendMessageResolver input { svc with defaultModel := d } upstream mockIdx genId now
      = sendMessageResolver input svc upstream mockIdx genId now := by
  have h := sendMessage_defaultModel_irrel svc d input.message
    (some { conversationId := input.conversationId
          , model := some (jsOptStrOr input.model "gpt-3.5-turbo")
          , systemPrompt := none })
    upstream mockIdx
    ⟨jsOptStrOr input.model "gpt-3.5-turbo", rfl,
      jsOptStrOr_ne_empty input.model "gpt-3.5-turbo" (by decide)⟩
  simp only [sendMessageResolver]
  rw [h]

/-- C9 counterexample: with `input.model` provided as the empty string,
the resolver passes and reports the literal `"gpt-3.5-turbo"`, not
`input.model` — "equal to input.model when provided" fails. -/
theorem empty_input_model_replaced :
    ({ message := "hi", conversationId := none, model := some "" : MessageInput }).model
        ≠ none
    ∧ (sendMessageResolver { message := "hi", conversationId := none, model := some "" }
        demoService FetchOutcome.fail 0 "id0" "t0").passedOptions.model
        = some "gpt-3.5-turbo"
    ∧ (sendMessageResolver { message := "hi", conversationId := none, model := some "" }
        demoService FetchOutcome.fail 0 "id0" "t0").response.model
        = "gpt-3.5-turbo"
    ∧ some "gpt-3.5-turbo" ≠ (some "" : Option String) := by
  refine ⟨by decide, by decide, by decide, by decide⟩

/-- C9 (amended): on the mutation path, the model passed to the
completion client and the model reported in the ChatResponse both equal
`input.model` when it is provided and nonempty, and the literal
`"gpt-3.5-turbo"` when it is absent or empty; the configured default
model is never consulted — the whole resolver trace is unchanged under
any `defaultModel`, hence under any OPENAI_MODEL binding. -/
theorem resolver_model_characterization (input : MessageInput) (svc : ChatGPTService)
    (upstream : FetchOutcome) (mockIdx : Fin 4) (genId now : String) :
    (∀ s, input.model = some s → s ≠ "" →
        (sendMessageResolver input svc upstream mockIdx genId now).passedOptions.model = some s
        ∧ (sendMessageResolver input svc upstream mockIdx genId now).response.model = s)
    ∧ ((input.model = none ∨ input.model = some "") →
        (sendMessageResolver input svc upstream mockIdx genId now).passedOptions.model
            = some "gpt-3.5-turbo"
        ∧ (sendMessageResolver input svc upstream mockIdx genId now).response.model
            = "gpt-3.5-turbo")
    ∧ (∀ d, sendMessageResolver input { svc with defaultModel := d } upstream mockIdx genId now
        = sendMessageResolver input svc upstream mockIdx genId now)
    ∧ (∀ jsParseInt jsParseFloat env v,
        sendMessageResolver input
            (createChatGPTService jsParseInt jsParseFloat { env with OPENAI_MODEL := v })
            upstream mockIdx genId now
          = sendMessageResolver input (createChatGPTService jsParseInt jsParseFloat env)
              upstream mockIdx genId now) := by
  refine ⟨?_, ?_, ?_, ?_⟩
  · intro s hs hne
    constructor <;> simp [sendMessageResolver, jsOptStrOr, jsStrOr, hs, hne]
  · rintro (h | h) <;>
      exact ⟨by simp [sendMessageResolver, jsOptStrOr, jsStrOr, h],
             by simp [sendMessageResolver, jsOptStrOr, jsStrOr, h]⟩
  · intro d
    exact resolver_defaultModel_irrel input svc d upstream mockIdx genId now
  · intro jsParseInt jsParseFloat env v
    have hsplit : createChatGPTService jsParseInt jsParseFloat { env with OPENAI_MODEL := v }
        = { createChatGPTService jsParseInt jsParseFloat env with
            defaultModel := jsOptStrOr (some (jsOptStrOr v "gpt-3.5-turbo")) "gpt-3.5-turbo" } := rfl
    rw [hsplit]
    exact resolver_defaultModel_irrel input _ _ upstream mockIdx genId now

/-- Witness for C9 (amended) at a concrete provided nonempty model. -/
theorem resolver_model_characterization_witness :
    (sendMessageResolver { message := "hi", conversationId := none, model := some "gpt-4" }
        demoService FetchOutcome.fail 0 "id0" "t0").passedOptions.model = some "gpt-4"
    ∧ (sendMessageResolver { message := "hi", conversationId := none, model := some "gpt-4" }
        demoService FetchOutcome.fail 0 "id0" "t0").response.model = "gpt-4" :=
  (resolver_model_characterization
      { message := "hi", conversationId := none, model := some "gpt-4" }
      demoService FetchOutcome.fail 0 "id0" "t0").1 "gpt-4" rfl (by decide)

/-- C8: every OPTIONS request, whatever its path and whatever the
oracles, is answered 200 with a null body and exactly the three CORS
headers, before any route dispatch (the right-hand side mentions neither
the path nor the engine). -/
theorem options_preflight (parseJson : String → Option JsValue)
    (jsParseInt : String → Int) (jsParseFloat : String → Rat)
    (exec : GraphQLRequestV → ChatGPTService → ExecOutcome)
    (env : Env) (now : String) (req : WRequest)
    (h : req.method = "OPTIONS") :
    workerFetch parseJson jsParseInt jsParseFloat exec env now req
      = Except.ok { status := 200, body := none, headers := corsHeaders } := by
  simp [workerFetch, handleCORS, h]

/-- Witness for C8 at a concrete OPTIONS request. -/
theorem options_preflight_witness :
    workerFetch (fun _ => none) (fun _ => 0) (fun _ => 0)
        (fun _ _ => ExecOutcome.ok "") {} "t0" optionsReq
      = Except.ok { status := 200, body := none, headers := corsHeaders } :=
  options_preflight (fun _ => none) (fun _ => 0) (fun _ => 0)
    (fun _ _ => ExecOutcome.ok "") {} "t0" optionsReq rfl

/-- C5: every response the gateway produces — preflight, health, GraphQL
success, 400, 500, playground, 404 — carries all three cross-origin
headers. (On the one path that produces no response at all, the escaping
GET-variables exception, there is nothing to check.) -/
theorem every_response_has_cors (parseJson : String → Option JsValue)
    (jsParseInt : String → Int) (jsParseFloat : String → Rat)
    (exec : GraphQLRequestV → ChatGPTService → ExecOutcome)
    (env : Env) (now : String) (req : WRequest) (resp : WResponse)
    (h : workerFetch parseJson jsParseInt jsParseFloat exec env now req = Except.ok resp) :
    ("Access-Control-Allow-Origin", "*") ∈ resp.headers
    ∧ ("Access-Control-Allow-Methods", "GET, POST, OPTIONS") ∈ resp.headers
    ∧ ("Access-Control-Allow-Headers", "Content-Type, Authorization") ∈ resp.headers := by
  unfold workerFetch at h
  cases hc : handleCORS req with
  | some r =>
    rw [hc] at h
    injection h with h
    subst h
    unfold handleCORS at hc
    split at hc
    · injection hc with hc
      subst hc
      refine ⟨?_, ?_, ?_⟩ <;> simp [corsHeaders]
    · exact Option.noConfusion hc
  | none =>
    rw [hc] at h
    repeat' split at h
    all_goals try contradiction
    all_goals injection h with h
    all_goals subst h
    all_goals refine ⟨?_, ?_, ?_⟩
    all_goals simp [corsHeaders]

/-- Witness for C5 at a concrete request and response. -/
theorem every_response_has_cors_witness :
    ("Access-Control-Allow-Origin", "*")
        ∈ ({ status := 200, body := none, headers := corsHeaders } : WResponse).headers
    ∧ ("Access-Control-Allow-Methods", "GET, POST, OPTIONS")
        ∈ ({ status := 200, body := none, headers := corsHeaders } : WResponse).headers
    ∧ ("Access-Control-Allow-Headers", "Content-Type, Authorization")
        ∈ ({ status := 200, body := none, headers := corsHeaders } : WResponse).headers :=
  every_response_has_cors (fun _ => none) (fun _ => 0) (fun _ => 0)
    (fun _ _ => ExecOutcome.ok "") {} "t0" optionsReq
    { status := 200, body := none, headers := corsHeaders } (by rfl)

/-- C4 counterexample: a POST /graphql whose body is well-formed JSON
(a truthy object) lacking the `query` field is NOT answered 400: the
decoded request is handed to the engine and (with an engine that
returns a result) the status is 200. -/
theorem post_missing_query_not_rejected :
    workerFetch (fun _ => none) (fun _ => 0) (fun _ => 0)
        (fun _ _ => ExecOutcome.ok "engineResult") {} "t0" postNoQueryReq
      = Except.ok { status := 200, body := some "engineResult"
                  , headers := ("Content-Type", "application/json") :: corsHeaders }
    ∧ postNoQueryReq.method = "POST"
    ∧ postNoQueryReq.pathname = "/graphql"
    ∧ postNoQueryReq.jsonBody
        = Except.ok { truthy := true, query := none
                    , variableValues := none, operationName := none }
    ∧ (200 : Nat) ≠ 400 := by
  refine ⟨by rfl, rfl, rfl, rfl, by decide⟩

/-- C4 (amended): a POST to /graphql is answered 400 with
`{"error":"Invalid GraphQL request"}` exactly when decoding fails — the
JSON body is unparseable or parses to a falsy value, or the content type
is neither application/json nor application/graphql. A well-formed
truthy JSON body, even with a missing or empty `query` field, is passed
to execution and yields status 200 or 500, never 400. -/
theorem post_graphql_400_characterization (parseJson : String → Option JsValue)
    (jsParseInt : String → Int) (jsParseFloat : String → Rat)
    (exec : GraphQLRequestV → ChatGPTService → ExecOutcome)
    (env : Env) (now : String) (req : WRequest)
    (hm : req.method = "POST") (hp : req.pathname = "/graphql") :
    (parseGraphQLRequest parseJson req = Except.ok none →
        workerFetch parseJson jsParseInt jsParseFloat exec env now req
          = Except.ok { status := 400, body := some invalidRequestBody
                      , headers := ("Content-Type", "application/json") :: corsHeaders })
    ∧ (∀ gq, parseGraphQLRequest parseJson req = Except.ok (some gq) →
        ∃ resp, workerFetch parseJson jsParseInt jsParseFloat exec env now req
            = Except.ok resp
          ∧ (resp.status = 200 ∨ resp.status = 500) ∧ resp.status ≠ 400)
    ∧ (∀ body, ctIncludes req.contentType "application/json" = true →
        req.jsonBody = Except.ok body → body.truthy = true →
          ∃ resp, workerFetch parseJson jsParseInt jsParseFloat exec env now req
              = Except.ok resp
            ∧ resp.status ≠ 400) := by
  have hcors : handleCORS req = none := by simp [handleCORS, hm]
  refine ⟨?_, ?_, ?_⟩
  · intro hparse
    simp [workerFetch, hcors, hp, hparse]
  · intro gq hparse
    cases hex : exec gq (createChatGPTService jsParseInt jsParseFloat env) with
    | ok s =>
        exact ⟨{ status := 200, body := some s
               , headers := ("Content-Type", "application/json") :: corsHeaders },
          by simp [workerFetch, hcors, hp, hparse, hex], Or.inl rfl, by simp⟩
    | thrown m =>
        exact ⟨{ status := 500, body := some (internalErrorBody m)
               , headers := ("Content-Type", "application/json") :: corsHeaders },
          by simp [workerFetch, hcors, hp, hparse, hex], Or.inr rfl, by simp⟩
  · intro body hct hbody htruthy
    have hparse : parseGraphQLRequest parseJson req
        = Except.ok (some { query := body.query, variableValues := body.variableValues
                          , operationName := body.operationName }) := by
      simp [parseGraphQLRequest, hm, hct, hbody, htruthy]
    cases hex : exec { query := body.query, variableValues := body.variableValues
                     , operationName := body.operationName }
        (createChatGPTService jsParseInt jsParseFloat env) with
    | ok s =>
        exact ⟨{ status := 200, body := some s
               , headers := ("Content-Type", "application/json") :: corsHeaders },
          by simp [workerFetch, hcors, hp, hparse, hex], by simp⟩
    | thrown m =>
        exact ⟨{ status := 500, body := some (internalErrorBody m)
               , headers := ("Content-Type", "application/json") :: corsHeaders },
          by simp [workerFetch, hcors, hp, hparse, hex], by simp⟩

/-- Witness for C4 (amended) at a concrete undecodable POST. -/
theorem post_graphql_400_characterization_witness :
    workerFetch (fun _ => none) (fun _ => 0) (fun _ => 0)
        (fun _ _ => ExecOutcome.ok "r") {} "t0"
        { method := "POST", pathname := "/graphql"
        , contentType := some "application/json", jsonBody := Except.error () }
      = Except.ok { status := 400, body := some invalidRequestBody
                  , headers := ("Content-Type", "application/json") :: corsHeaders } :=
  (post_graphql_400_characterization (fun _ => none) (fun _ => 0) (fun _ => 0)
      (fun _ _ => ExecOutcome.ok "r") {} "t0"
      { method := "POST", pathname := "/graphql"
      , contentType := some "application/json", jsonBody := Except.error () }
      rfl rfl).1 (by rfl)

/-- C7 counterexample: a GET /graphql with a nonempty query parameter and
a `variables` parameter that is not valid JSON is not answered 400 —
the `JSON.parse` exception escapes the handler uncaught, so the gateway
produces no response at all. -/
theorem invalid_variables_uncaught :
    workerFetch (fun _ => none) (fun _ => 0) (fun _ => 0)
        (fun _ _ => ExecOutcome.ok "r") {} "t0" getBadVarsReq
      = Except.error ()
    ∧ (Except.error () : Except Unit WResponse)
        ≠ Except.ok { status := 400, body := some invalidRequestBody
                    , headers := ("Content-Type", "application/json") :: corsHeaders } := by
  refine ⟨by rfl, by simp⟩

/-- C7 (amended): on a GET /graphql with a nonempty query parameter and a
nonempty `variables` parameter, when `variables` is valid JSON its parsed
value is passed to execution (and the gateway answers 200 or 500 per the
engine); when it is not valid JSON, the `JSON.parse` exception escapes the
handler uncaught — no response, in particular no 400, is produced. -/
theorem get_variables_characterization (parseJson : String → Option JsValue)
    (jsParseInt : String → Int) (jsParseFloat : String → Rat)
    (exec : GraphQLRequestV → ChatGPTService → ExecOutcome)
    (env : Env) (now : String) (req : WRequest) (q v : String)
    (hm : req.method = "GET") (hp : req.pathname = "/graphql")
    (hq : req.queryParam = some q) (hqne : q ≠ "")
    (hv : req.variablesParam = some v) (hvne : v ≠ "") :
    (∀ j, parseJson v = some j →
        parseGraphQLRequest parseJson req
          = Except.ok (some { query := some q, variableValues := some j
                            , operationName := jsStrOrUndef req.operationNameParam })
        ∧ ∃ resp, workerFetch parseJson jsParseInt jsParseFloat exec env now req
              = Except.ok resp
            ∧ (resp.status = 200 ∨ resp.status = 500)
            ∧ (∀ s, exec { query := some q, variableValues := some j
                         , operationName := jsStrOrUndef req.operationNameParam }
                  (createChatGPTService jsParseInt jsParseFloat env) = ExecOutcome.ok s →
                resp = { status := 200, body := some s
                       , headers := ("Content-Type", "application/json") :: corsHeaders }))
    ∧ (parseJson v = none →
        workerFetch parseJson jsParseInt jsParseFloat exec env now req
          = Except.error ()) := by
  have hcors : handleCORS req = none := by simp [handleCORS, hm]
  constructor
  · intro j hj
    have hparse : parseGraphQLRequest parseJson req
        = Except.ok (some { query := some q, variableValues := some j
                          , operationName := jsStrOrUndef req.operationNameParam }) := by
      simp [parseGraphQLRequest, hm, hq, hqne, hv, hvne, hj]
    refine ⟨hparse, ?_⟩
    cases hex : exec { query := some q, variableValues := some j
                     , operationName := jsStrOrUndef req.operationNameParam }
        (createChatGPTService jsParseInt jsParseFloat env) with
    | ok s =>
        refine ⟨{ status := 200, body := some s
                , headers := ("Content-Type", "application/json") :: corsHeaders },
          by simp [workerFetch, hcors, hp, hparse, hex], Or.inl rfl, ?_⟩
        intro s2 hs2
        injection hs2 with hs2
        rw [hs2]
    | thrown m =>
        refine ⟨{ status := 500, body := some (internalErrorBody m)
                , headers := ("Content-Type", "application/json") :: corsHeaders },
          by simp [workerFetch, hcors, hp, hparse, hex], Or.inr rfl, ?_⟩
        intro s2 hs2
        exact ExecOutcome.noConfusion hs2
  · intro hj
    have hparse : parseGraphQLRequest parseJson req = Except.error () := by
      simp [parseGraphQLRequest, hm, hq, hqne, hv, hvne, hj]
    simp [workerFetch, hcors, hp, hparse]

/-- Witness for C7 (amended) at a concrete GET request with valid JSON
variables. -/
theorem get_variables_characterization_witness :
    parseGraphQLRequest (fun _ => some JsValue.null)
        { method := "GET", pathname := "/graphql"
        , queryParam := some "query Q", variablesParam := some "null" }
      = Except.ok (some { query := some "query Q", variableValues := some JsValue.null
                        , operationName := none }) :=
  ((get_variables_characterization (fun _ => some JsValue.null) (fun _ => 0) (fun _ => 0)
      (fun _ _ => ExecOutcome.ok "r") {} "t0"
      { method := "GET", pathname := "/graphql"
      , queryParam := some "query Q", variablesParam := some "null" }
      "query Q" "null" rfl rfl rfl (by decide) rfl (by decide)).1
    JsValue.null rfl).1

end AIChat
